import Mathlib

/-!
The `setjmp.h` shim of openslide-bin

`src/include/setjmp.h` is a preprocessor-only unit: an include guard, an
`#include_next` of the platform header, and a conditional `#undef`/`#define`
of `setjmp`.  Its meaning is its effect on the preprocessor state, so the
development embeds

* the preprocessor state (the table of defined names, the stack of open
  conditional groups, a log of the directives that were executed),
* the handful of directives the header uses, with their standard meaning,
* the header itself, line by line,
* one step of function-like replacement, which is what a call site
  `setjmp(buf)` undergoes.

The platform header reached by `#include_next <setjmp.h>` is not part of the
repository; it is a parameter `nativeHeader` throughout.
-/

namespace OpenslideSetjmp

/-! ## Data model -/

/-- A preprocessing token, kept as its spelling. -/
abbrev Token := String

/-- The two kinds of definition a `#define` can install. -/
inductive MacroDef where
  | objectLike (body : List Token)
  | functionLike (params : List Token) (body : List Token)
  deriving DecidableEq, Repr

/-- The table of currently defined names. -/
abbrev MacroEnv := String → Option MacroDef

/-- The `defined NAME` operator of `#if`, `#ifdef` and `#ifndef`. -/
def defined (env : MacroEnv) (name : String) : Bool :=
  (env name).isSome

/-- Effect of `#define name d` on the table. -/
def MacroEnv.define (env : MacroEnv) (name : String) (d : MacroDef) : MacroEnv :=
  fun n => if n = name then some d else env n

/-- Effect of `#undef name` on the table. -/
def MacroEnv.undef (env : MacroEnv) (name : String) : MacroEnv :=
  fun n => if n = name then none else env n

/-- The directive lines that occur in the header. -/
inductive Line where
  | ifndef (name : String)
  | ifDefined (name : String)
  | endif
  | define (name : String) (d : MacroDef)
  | undef (name : String)
  | includeNext (file : String)
  deriving DecidableEq, Repr

/-- An executed (not skipped) directive.  A `define` entry also records what
the name was bound to immediately before the directive ran. -/
inductive Event where
  | includeNext (file : String)
  | undef (name : String)
  | define (name : String) (d : MacroDef) (previous : Option MacroDef)
  deriving DecidableEq, Repr

/-- Preprocessor state: the table, the stack of open conditional groups
(innermost first; `true` means the group is being processed) and the log of
executed directives, oldest first. -/
structure PPState where
  env : MacroEnv
  conds : List Bool
  log : List Event

/-- Whether the current line lies in a group that is being processed. -/
def PPState.active (st : PPState) : Bool :=
  match st.conds with
  | [] => true
  | c :: _ => c

/-- The state in which a translation unit reaches the `#include` of the shim. -/
def PPState.start (env : MacroEnv) : PPState :=
  { env := env, conds := [], log := [] }

/-! ## Directive semantics -/

/-- Process one directive line.  Conditions of a conditional nested in a
skipped group are not evaluated; the group is skipped as a whole.  A stray
`#endif` (none occurs in the header) leaves the empty stack empty. -/
def step (nativeHeader : MacroEnv → MacroEnv) (st : PPState) : Line → PPState
  | .ifndef name =>
      { st with conds := (st.active && !defined st.env name) :: st.conds }
  | .ifDefined name =>
      { st with conds := (st.active && defined st.env name) :: st.conds }
  | .endif =>
      { st with conds := st.conds.tail }
  | .define name d =>
      if st.active then
        { st with env := st.env.define name d,
                  log := st.log ++ [Event.define name d (st.env name)] }
      else st
  | .undef name =>
      if st.active then
        { st with env := st.env.undef name, log := st.log ++ [Event.undef name] }
      else st
  | .includeNext file =>
      if st.active then
        { st with env := nativeHeader st.env, log := st.log ++ [Event.includeNext file] }
      else st

/-- Process a sequence of directive lines in order. -/
def processLines (nativeHeader : MacroEnv → MacroEnv) (ls : List Line) (st : PPState) :
    PPState :=
  ls.foldl (step nativeHeader) st

/-! ## The header -/

/-- The replacement installed by the header: `setjmp(buf)` becomes
`_setjmp(buf, NULL)`. -/
def overrideDef : MacroDef :=
  .functionLike ["buf"] ["_setjmp", "(", "buf", ",", "NULL", ")"]

/-- The directives of `src/include/setjmp.h`, in file order. -/
def setjmp_h : List Line :=
  [ Line.ifndef "OPENSLIDE_SETJMP_H",
    Line.define "OPENSLIDE_SETJMP_H" (MacroDef.objectLike []),
    Line.includeNext "setjmp.h",
    Line.ifDefined "_WIN32",
    Line.undef "setjmp",
    Line.define "setjmp"
      (MacroDef.functionLike ["buf"] ["_setjmp", "(", "buf", ",", "NULL", ")"]),
    Line.endif,
    Line.endif ]

/-- Processing `#include <setjmp.h>` (resolved to the shim) from the table
`env`, with nothing logged yet and no conditional open. -/
def includeShim (nativeHeader : MacroEnv → MacroEnv) (env : MacroEnv) : PPState :=
  processLines nativeHeader setjmp_h (PPState.start env)

/-- The table with which the platform header is entered when the shim is
processed for the first time: the guard has just been defined. -/
def guarded (env : MacroEnv) : MacroEnv :=
  env.define "OPENSLIDE_SETJMP_H" (.objectLike [])

/-- Whether the log shows a `#define setjmp` having been executed. -/
def overrideInstalled (st : PPState) : Bool :=
  st.log.any fun e =>
    match e with
    | .define name _ _ => name == "setjmp"
    | _ => false

/-- The definition given to `setjmp` by the first executed `#define setjmp`
of the log, if any. -/
def installedDefinition (st : PPState) : Option MacroDef :=
  st.log.findSome? fun e =>
    match e with
    | .define name d _ => if name = "setjmp" then some d else none
    | _ => none

/-! ## Replacement of a call site -/

/-- The argument list of a call, spelled out: `( a1 , a2 , ... )`. -/
def argTokens (args : List (List Token)) : List Token :=
  "(" :: (List.intercalate [","] args ++ [")"])

/-- The tokens of the call `f(a1, a2, ...)`. -/
def callTokens (f : Token) (args : List (List Token)) : List Token :=
  f :: argTokens args

/-- Replace each parameter occurring in `body` by the corresponding argument;
other tokens are copied. -/
def substitute (params : List Token) (args : List (List Token)) (body : List Token) :
    List Token :=
  body.flatMap fun t =>
    match (params.zip args).lookup t with
    | some a => a
    | none => [t]

/-- One replacement step for the call `name(args)` whose arguments have
already been separated: a name that is not defined is left alone, an
object-like definition replaces the name only, a function-like definition
replaces the whole invocation and requires the argument count to match.
The result is not rescanned. -/
def expandCall (env : MacroEnv) (name : Token) (args : List (List Token)) :
    Option (List Token) :=
  match env name with
  | none => some (callTokens name args)
  | some (.objectLike body) => some (body ++ argTokens args)
  | some (.functionLike params body) =>
      if params.length = args.length then some (substitute params args body) else none

/-! ## Call sites as token sequences -/

/-- Two tables describe the same platform: they agree on whether `_WIN32`
and on whether `_WIN64` is defined. -/
def SamePlatform (e1 e2 : MacroEnv) : Prop :=
  defined e1 "_WIN32" = defined e2 "_WIN32" ∧ defined e1 "_WIN64" = defined e2 "_WIN64"

/-- A platform header that neither defines nor undefines `_WIN32` or
`_WIN64`. -/
def PreservesPlatform (nativeHeader : MacroEnv → MacroEnv) : Prop :=
  ∀ e, SamePlatform (nativeHeader e) e

/-- A platform header that does not undefine the guard of the shim. -/
def KeepsGuard (nativeHeader : MacroEnv → MacroEnv) : Prop :=
  ∀ e, defined e "OPENSLIDE_SETJMP_H" = true →
    defined (nativeHeader e) "OPENSLIDE_SETJMP_H" = true

/-! ## Sample platforms

Concrete tables and platform headers used as inputs. -/

/-- Predefined names of a 32-bit Windows build: `_WIN32` only. -/
def win32Env : MacroEnv :=
  fun n => if n = "_WIN32" then some (.objectLike ["1"]) else none

/-- Predefined names of a 64-bit Windows build: `_WIN32` and `_WIN64`. -/
def win64Env : MacroEnv :=
  fun n => if n = "_WIN32" ∨ n = "_WIN64" then some (.objectLike ["1"]) else none

/-- A 64-bit Windows build by a MinGW toolchain. -/
def win64MingwEnv : MacroEnv :=
  fun n =>
    if n = "_WIN32" ∨ n = "_WIN64" ∨ n = "__MINGW32__" ∨ n = "__GNUC__" then
      some (.objectLike ["1"])
    else none

/-- A 64-bit Windows build by the MSVC toolchain. -/
def win64MsvcEnv : MacroEnv :=
  fun n =>
    if n = "_WIN32" ∨ n = "_WIN64" ∨ n = "_MSC_VER" then some (.objectLike ["1"]) else none

/-- A 64-bit Windows translation unit in which user code has already
defined `setjmp` before the include. -/
def win64UserEnv : MacroEnv :=
  win64Env.define "setjmp" (.functionLike ["b"] ["my_setjmp", "(", "b", ")"])

/-- Predefined names of a Linux build. -/
def linuxEnv : MacroEnv :=
  fun n => if n = "__linux__" then some (.objectLike ["1"]) else none

/-- A platform header in the style of 32-bit MinGW:
`#define setjmp(BUF) _setjmp3((BUF), NULL)`. -/
def mingw32Header (env : MacroEnv) : MacroEnv :=
  env.define "setjmp"
    (.functionLike ["BUF"] ["_setjmp3", "(", "(", "BUF", ")", ",", "NULL", ")"])

/-- A platform header in the style of 64-bit MinGW:
`#define setjmp(BUF) _setjmp((BUF), __builtin_frame_address(0))`. -/
def mingw64Header (env : MacroEnv) : MacroEnv :=
  env.define "setjmp"
    (.functionLike ["BUF"]
      ["_setjmp", "(", "(", "BUF", ")", ",", "__builtin_frame_address", "(", "0", ")", ")"])

/-- A platform header in the style of MSVC: `#define setjmp _setjmp`. -/
def msvcHeader (env : MacroEnv) : MacroEnv :=
  env.define "setjmp" (.objectLike ["_setjmp"])

/-- A platform header that declares `setjmp` as a function and defines no
name at all. -/
def plainHeader (env : MacroEnv) : MacroEnv := env

/-! ## Closed form of one inclusion -/

theorem includeShim_guard_set (nativeHeader : MacroEnv → MacroEnv) (env : MacroEnv)
    (h : defined env "OPENSLIDE_SETJMP_H" = true) :
    includeShim nativeHeader env = PPState.start env := by
  simp [includeShim, processLines, setjmp_h, step, PPState.start, PPState.active, h]

theorem includeShim_override (nativeHeader : MacroEnv → MacroEnv) (env : MacroEnv)
    (hg : defined env "OPENSLIDE_SETJMP_H" = false)
    (hp : defined (nativeHeader (guarded env)) "_WIN32" = true) :
    includeShim nativeHeader env =
      { env := MacroEnv.define (MacroEnv.undef (nativeHeader (guarded env)) "setjmp")
          "setjmp" overrideDef,
        conds := [],
        log := [ Event.define "OPENSLIDE_SETJMP_H" (.objectLike []) (env "OPENSLIDE_SETJMP_H"),
                 Event.includeNext "setjmp.h",
                 Event.undef "setjmp",
                 Event.define "setjmp" overrideDef none ] } := by
  simp [includeShim, processLines, setjmp_h, step, PPState.start, PPState.active, hg,
    guarded, overrideDef] at hp ⊢
  simp [hp, MacroEnv.undef]

theorem includeShim_passthrough (nativeHeader : MacroEnv → MacroEnv) (env : MacroEnv)
    (hg : defined env "OPENSLIDE_SETJMP_H" = false)
    (hp : defined (nativeHeader (guarded env)) "_WIN32" = false) :
    includeShim nativeHeader env =
      { env := nativeHeader (guarded env),
        conds := [],
        log := [ Event.define "OPENSLIDE_SETJMP_H" (.objectLike []) (env "OPENSLIDE_SETJMP_H"),
                 Event.includeNext "setjmp.h" ] } := by
  simp [includeShim, processLines, setjmp_h, step, PPState.start, PPState.active, hg,
    guarded] at hp ⊢
  simp [hp]

theorem defined_guarded_guard (env : MacroEnv) :
    defined (guarded env) "OPENSLIDE_SETJMP_H" = true := by
  simp [guarded, defined, MacroEnv.define]

theorem guarded_other (env : MacroEnv) (n : String) (h : n ≠ "OPENSLIDE_SETJMP_H") :
    guarded env n = env n := by
  simp [guarded, MacroEnv.define, h]

/-- The override is installed exactly when the guard was not yet set and
`_WIN32` is defined once the platform header has been read. -/
theorem overrideInstalled_includeShim (nativeHeader : MacroEnv → MacroEnv) (env : MacroEnv) :
    overrideInstalled (includeShim nativeHeader env) =
      (!defined env "OPENSLIDE_SETJMP_H" && defined (nativeHeader (guarded env)) "_WIN32") := by
  cases hg : defined env "OPENSLIDE_SETJMP_H"
  · cases hp : defined (nativeHeader (guarded env)) "_WIN32"
    · rw [includeShim_passthrough nativeHeader env hg hp]
      simp [overrideInstalled]
    · rw [includeShim_override nativeHeader env hg hp]
      simp [overrideInstalled]
  · rw [includeShim_guard_set nativeHeader env hg]
    simp [overrideInstalled, PPState.start]

/-! ## Claims -/

/-- C2: evaluation on a 32-bit Windows build (`_WIN32` defined, `_WIN64`
not defined, MinGW-style platform header): the header executes its
`#define setjmp` and leaves `setjmp` bound to the override. -/
theorem override_installed_on_win32 :
    defined win32Env "_WIN32" = true ∧
    defined win32Env "_WIN64" = false ∧
    defined (mingw32Header (guarded win32Env)) "_WIN64" = false ∧
    overrideInstalled (includeShim mingw32Header win32Env) = true ∧
    (includeShim mingw32Header win32Env).env "setjmp" = some overrideDef := by
  decide

/-- C3: evaluation on a 32-bit Windows build: after the header `setjmp` is
not bound to what the platform header bound it to, and `setjmp(env)` is
replaced by `_setjmp(env, NULL)` where the platform header alone gives
`_setjmp3((env), NULL)`. -/
theorem passthrough_broken_on_win32 :
    defined win32Env "_WIN64" = false ∧
    (includeShim mingw32Header win32Env).env "setjmp" ≠ mingw32Header win32Env "setjmp" ∧
    expandCall (includeShim mingw32Header win32Env).env "setjmp" [["env"]] =
      some ["_setjmp", "(", "env", ",", "NULL", ")"] ∧
    expandCall (mingw32Header win32Env) "setjmp" [["env"]] =
      some ["_setjmp3", "(", "(", "env", ")", ",", "NULL", ")"] := by
  decide

/-- Passthrough where the code has it: if `_WIN32` is not defined after the
platform header, the table after the shim is the table the platform header
produced (entered with the guard defined). -/
theorem passthrough_without_WIN32 (nativeHeader : MacroEnv → MacroEnv) (env : MacroEnv)
    (hg : defined env "OPENSLIDE_SETJMP_H" = false)
    (hp : defined (nativeHeader (guarded env)) "_WIN32" = false) :
    (includeShim nativeHeader env).env = nativeHeader (guarded env) := by
  rw [includeShim_passthrough nativeHeader env hg hp]

/-- On a Linux build whose platform header defines no name, the shim only
adds its guard: two directives are executed and `setjmp` stays undefined. -/
theorem shim_only_adds_guard_on_linux :
    (includeShim plainHeader linuxEnv).log =
      [ Event.define "OPENSLIDE_SETJMP_H" (.objectLike []) none,
        Event.includeNext "setjmp.h" ] ∧
    (includeShim plainHeader linuxEnv).env "setjmp" = none ∧
    overrideInstalled (includeShim plainHeader linuxEnv) = false := by
  decide

/-- C4: if the platform header does not undefine the guard, a second
inclusion of the header, from any starting table, executes no directive
(its log is empty, no conditional stays open) and leaves the table of the
first inclusion unchanged. -/
theorem second_inclusion_is_silent (nativeHeader : MacroEnv → MacroEnv) (env : MacroEnv)
    (hn : KeepsGuard nativeHeader) :
    (includeShim nativeHeader (includeShim nativeHeader env).env).env =
        (includeShim nativeHeader env).env ∧
    (includeShim nativeHeader (includeShim nativeHeader env).env).log = [] ∧
    (includeShim nativeHeader (includeShim nativeHeader env).env).conds = [] ∧
    processLines nativeHeader setjmp_h (includeShim nativeHeader env) =
      includeShim nativeHeader env := by
  have hset : defined (includeShim nativeHeader env).env "OPENSLIDE_SETJMP_H" = true := by
    cases hg : defined env "OPENSLIDE_SETJMP_H"
    · have h2 := hn (guarded env) (defined_guarded_guard env)
      cases hp : defined (nativeHeader (guarded env)) "_WIN32"
      · rw [includeShim_passthrough nativeHeader env hg hp]
        exact h2
      · rw [includeShim_override nativeHeader env hg hp]
        simpa [defined, MacroEnv.define, MacroEnv.undef] using h2
    · rw [includeShim_guard_set nativeHeader env hg]
      exact hg
  refine ⟨?_, ?_, ?_, ?_⟩
  · rw [includeShim_guard_set nativeHeader _ hset]
    rfl
  · rw [includeShim_guard_set nativeHeader _ hset]
    rfl
  · rw [includeShim_guard_set nativeHeader _ hset]
    rfl
  · have hc : (includeShim nativeHeader env).conds = [] := by
      cases hg : defined env "OPENSLIDE_SETJMP_H"
      · cases hp : defined (nativeHeader (guarded env)) "_WIN32"
        · rw [includeShim_passthrough nativeHeader env hg hp]
        · rw [includeShim_override nativeHeader env hg hp]
      · rw [includeShim_guard_set nativeHeader env hg]
        rfl
    generalize includeShim nativeHeader env = st at hset hc
    obtain ⟨e, c, l⟩ := st
    simp only at hset hc
    subst hc
    simp [processLines, setjmp_h, step, PPState.active, hset]

theorem mingw64Header_keepsGuard : KeepsGuard mingw64Header := by
  intro e h
  simpa [mingw64Header, defined, MacroEnv.define] using h

/-- Witness for C4: a 64-bit Windows build with a MinGW-style platform
header. -/
theorem second_inclusion_is_silent_witness :
    KeepsGuard mingw64Header ∧
    (includeShim mingw64Header (includeShim mingw64Header win64Env).env).env =
        (includeShim mingw64Header win64Env).env ∧
    (includeShim mingw64Header (includeShim mingw64Header win64Env).env).log = [] ∧
    (includeShim mingw64Header (includeShim mingw64Header win64Env).env).conds = [] ∧
    processLines mingw64Header setjmp_h (includeShim mingw64Header win64Env) =
      includeShim mingw64Header win64Env :=
  ⟨mingw64Header_keepsGuard,
    second_inclusion_is_silent mingw64Header win64Env mingw64Header_keepsGuard⟩

theorem installedDefinition_includeShim (nativeHeader : MacroEnv → MacroEnv) (env : MacroEnv) :
    installedDefinition (includeShim nativeHeader env) =
      if overrideInstalled (includeShim nativeHeader env) = true then some overrideDef
      else none := by
  cases hg : defined env "OPENSLIDE_SETJMP_H"
  · cases hp : defined (nativeHeader (guarded env)) "_WIN32"
    · rw [includeShim_passthrough nativeHeader env hg hp]
      simp [installedDefinition, overrideInstalled]
    · rw [includeShim_override nativeHeader env hg hp]
      simp [installedDefinition, overrideInstalled]
  · rw [includeShim_guard_set nativeHeader env hg]
    simp [installedDefinition, overrideInstalled, PPState.start]

theorem setjmp_bound_when_installed (nativeHeader : MacroEnv → MacroEnv) (env : MacroEnv)
    (h : overrideInstalled (includeShim nativeHeader env) = true) :
    (includeShim nativeHeader env).env "setjmp" = some overrideDef := by
  rw [overrideInstalled_includeShim] at h
  simp only [Bool.and_eq_true, Bool.not_eq_true'] at h
  rw [includeShim_override nativeHeader env h.1 h.2]
  simp [MacroEnv.define]

theorem platform_test_of_preserves (nativeHeader : MacroEnv → MacroEnv) (env : MacroEnv)
    (hn : PreservesPlatform nativeHeader) :
    defined (nativeHeader (guarded env)) "_WIN32" = defined env "_WIN32" := by
  rw [(hn (guarded env)).1]
  simp [defined, guarded, MacroEnv.define]

/-- C5: take two builds whose tables agree on `_WIN32`, on `_WIN64` and on
the guard, but are otherwise arbitrary (toolchain names included), each with
its own platform header, neither of which touches `_WIN32`/`_WIN64`.  Then
the header makes the same decision to execute its `#define setjmp`, installs
the same definition, and where it installs one `setjmp` ends up bound alike. -/
theorem override_independent_of_toolchain (native1 native2 : MacroEnv → MacroEnv)
    (env1 env2 : MacroEnv)
    (hn1 : PreservesPlatform native1) (hn2 : PreservesPlatform native2)
    (hplat : SamePlatform env1 env2)
    (hguard : defined env1 "OPENSLIDE_SETJMP_H" = defined env2 "OPENSLIDE_SETJMP_H") :
    overrideInstalled (includeShim native1 env1) =
        overrideInstalled (includeShim native2 env2) ∧
    installedDefinition (includeShim native1 env1) =
        installedDefinition (includeShim native2 env2) ∧
    (overrideInstalled (includeShim native1 env1) = true →
      (includeShim native1 env1).env "setjmp" = (includeShim native2 env2).env "setjmp") := by
  have hdec : overrideInstalled (includeShim native1 env1) =
      overrideInstalled (includeShim native2 env2) := by
    rw [overrideInstalled_includeShim, overrideInstalled_includeShim,
      platform_test_of_preserves native1 env1 hn1, platform_test_of_preserves native2 env2 hn2,
      hguard, hplat.1]
  refine ⟨hdec, ?_, ?_⟩
  · rw [installedDefinition_includeShim, installedDefinition_includeShim, hdec]
  · intro h1
    rw [setjmp_bound_when_installed native1 env1 h1,
      setjmp_bound_when_installed native2 env2 (hdec ▸ h1)]

theorem mingw64Header_preservesPlatform : PreservesPlatform mingw64Header := by
  intro e
  constructor <;> simp [mingw64Header, defined, MacroEnv.define]

theorem msvcHeader_preservesPlatform : PreservesPlatform msvcHeader := by
  intro e
  constructor <;> simp [msvcHeader, defined, MacroEnv.define]

/-- Witness for C5: 64-bit Windows built by MinGW (names `__MINGW32__`,
`__GNUC__`, MinGW-style header) against 64-bit Windows built by MSVC (name
`_MSC_VER`, MSVC-style header). -/
theorem override_independent_of_toolchain_witness :
    PreservesPlatform mingw64Header ∧ PreservesPlatform msvcHeader ∧
    SamePlatform win64MingwEnv win64MsvcEnv ∧
    defined win64MingwEnv "OPENSLIDE_SETJMP_H" = defined win64MsvcEnv "OPENSLIDE_SETJMP_H" ∧
    defined win64MingwEnv "__MINGW32__" ≠ defined win64MsvcEnv "__MINGW32__" ∧
    defined win64MingwEnv "_MSC_VER" ≠ defined win64MsvcEnv "_MSC_VER" ∧
    (overrideInstalled (includeShim mingw64Header win64MingwEnv) =
        overrideInstalled (includeShim msvcHeader win64MsvcEnv) ∧
      installedDefinition (includeShim mingw64Header win64MingwEnv) =
        installedDefinition (includeShim msvcHeader win64MsvcEnv) ∧
      (overrideInstalled (includeShim mingw64Header win64MingwEnv) = true →
        (includeShim mingw64Header win64MingwEnv).env "setjmp" =
          (includeShim msvcHeader win64MsvcEnv).env "setjmp")) :=
  ⟨mingw64Header_preservesPlatform, msvcHeader_preservesPlatform,
    ⟨by decide, by decide⟩, by decide, by decide, by decide,
    override_independent_of_toolchain mingw64Header msvcHeader win64MingwEnv win64MsvcEnv
      mingw64Header_preservesPlatform msvcHeader_preservesPlatform
      ⟨by decide, by decide⟩ (by decide)⟩

/-- C7: evaluation on a 32-bit Windows build: besides defining the guard and
reading the platform header, the header executes `#undef setjmp` and
`#define setjmp`, so `setjmp` (a name other than the guard) is bound
differently from what the platform header left. -/
theorem frame_broken_on_win32 :
    defined win32Env "_WIN32" = true ∧
    defined win32Env "_WIN64" = false ∧
    (includeShim mingw32Header win32Env).log =
      [ Event.define "OPENSLIDE_SETJMP_H" (.objectLike []) none,
        Event.includeNext "setjmp.h",
        Event.undef "setjmp",
        Event.define "setjmp" overrideDef none ] ∧
    ¬ (∀ n, n ≠ "OPENSLIDE_SETJMP_H" →
        (includeShim mingw32Header win32Env).env n = mingw32Header (guarded win32Env) n) := by
  refine ⟨by decide, by decide, by decide, ?_⟩
  intro h
  exact absurd (h "setjmp" (by decide)) (by decide)

/-- Frame of the override: whenever the guard was not yet set, every name
other than `setjmp` is bound after the shim as the platform header (entered
with the guard defined) left it. -/
theorem shim_frame (nativeHeader : MacroEnv → MacroEnv) (env : MacroEnv) (n : String)
    (hn : n ≠ "setjmp") (hg : defined env "OPENSLIDE_SETJMP_H" = false) :
    (includeShim nativeHeader env).env n = nativeHeader (guarded env) n := by
  cases hp : defined (nativeHeader (guarded env)) "_WIN32"
  · rw [includeShim_passthrough nativeHeader env hg hp]
  · rw [includeShim_override nativeHeader env hg hp]
    simp [MacroEnv.define, MacroEnv.undef, hn]

/-- C10: in every inclusion of the header, from any starting table and with
any platform header, each executed `#define setjmp` found the name `setjmp`
not defined. -/
theorem define_setjmp_finds_name_free (nativeHeader : MacroEnv → MacroEnv) (env : MacroEnv)
    (d : MacroDef) (previous : Option MacroDef)
    (h : Event.define "setjmp" d previous ∈ (includeShim nativeHeader env).log) :
    previous = none := by
  cases hg : defined env "OPENSLIDE_SETJMP_H"
  · cases hp : defined (nativeHeader (guarded env)) "_WIN32"
    · rw [includeShim_passthrough nativeHeader env hg hp] at h
      simp at h
    · rw [includeShim_override nativeHeader env hg hp] at h
      simp at h
      exact h.2
  · rw [includeShim_guard_set nativeHeader env hg] at h
    simp [PPState.start] at h

/-- Witness for C10: `setjmp` is defined by user code before the include and
again by the MinGW-style platform header, and the executed `#define setjmp`
still finds it free. -/
theorem define_setjmp_finds_name_free_witness :
    defined win64UserEnv "setjmp" = true ∧
    defined (mingw64Header (guarded win64UserEnv)) "setjmp" = true ∧
    Event.define "setjmp" overrideDef none ∈ (includeShim mingw64Header win64UserEnv).log ∧
    (none : Option MacroDef) = none :=
  ⟨by decide, by decide, by decide,
    define_setjmp_finds_name_free mingw64Header win64UserEnv overrideDef none (by decide)⟩

end OpenslideSetjmp
